import Mathlib

/-!
Verification development for the Danesfield pipeline driver
(`tools/run_danesfield.py`).

The development shallowly embeds the driver's pure logic:

* `create_working_dir`   — working-directory creation and the imagery-dir check;
* `ensure_complete_modality` — completeness of a modality role dictionary;
* `collate_input_paths`  — filename collation (including the fixed regular
  expression, embedded with Python's greedy backtracking semantics);
* `run_step`             — the checkpointed step runner, modelled as a
  transformer on an explicit filesystem state together with a trace of
  filesystem / process events;
* `stageSteps`           — the fixed stage sequence of `main`, modelled as the
  list of `run_step` invocations (working dir, step name, argument vector)
  the driver performs.

Machine integers do not occur; paths are Lean `String`s.  Filesystem contents
that the source obtains by scanning (`glob.glob` in `main`) are passed as
explicit parameters.
-/

set_option autoImplicit false

namespace Danesfield

/-! ## Basic path/string helpers -/

/-- `os.path.join` for the relative paths the driver builds (it only ever
joins with relative second components, where Python inserts a separator). -/
def pjoin (a b : String) : String := a ++ "/" ++ b

/-- Python's `in` operator on strings: substring containment (Bool). -/
def pyInB (a b : String) : Bool := decide (a.data <:+: b.data)

/-- `str.endswith` on strings. -/
def strEndsWith (s suff : String) : Bool := suff.data.isSuffixOf s.data

/-- `os.path.basename`: the part of the path after the last `/`. -/
def basenameData (cs : List Char) : List Char :=
  (cs.reverse.takeWhile (fun c => c ≠ '/')).reverse

def basenameStr (s : String) : String := ⟨basenameData s.data⟩

/-- `str.upper` restricted to ASCII, which is all the imagery naming contract
uses (`Char.toUpper` maps `a`-`z` to `A`-`Z` and fixes everything else). -/
def upperStr (s : String) : String := ⟨s.data.map Char.toUpper⟩

/-- The stem part of `os.path.splitext` applied to a basename: strip the part
after the last dot, ignoring any leading dots. -/
def lastDotStem (rest : List Char) : List Char :=
  let afterRev := rest.reverse.takeWhile (fun c => c ≠ '.')
  if afterRev.length = rest.length then rest
  else rest.take (rest.length - afterRev.length - 1)

/-- `os.path.splitext(os.path.split(p)[1])[0]`: basename without extension. -/
def stemOf (p : String) : String :=
  let bn := basenameData p.data
  let lead := bn.takeWhile (fun c => c = '.')
  ⟨lead ++ lastDotStem (bn.drop lead.length)⟩

/-! ## Python decimal rendering of integers

`run_step` names its marker file with `'{}.{}'.format(prefix, proc.returncode)`,
i.e. with Python's `str` of the (possibly negative) return code.  We embed the
decimal rendering explicitly so that its injectivity properties are provable. -/

/-- The character for a decimal digit `n < 10`. -/
def digitChar (n : Nat) : Char := Char.ofNat (48 + n)

/-- Accumulator-style decimal digits of a natural number (most significant
first, prepended to `acc`).  `natReprAux 0 acc = acc`. -/
def natReprAux : Nat → List Char → List Char
  | 0, acc => acc
  | (n+1), acc => natReprAux ((n+1) / 10) (digitChar ((n+1) % 10) :: acc)
  termination_by n _ => n
  decreasing_by
    simp_wf
    exact Nat.div_lt_self (Nat.succ_pos n) (by omega)

/-- Python `str` of a natural number. -/
def pyStrNat (n : Nat) : String := if n = 0 then "0" else ⟨natReprAux n []⟩

/-- Python `str` of an integer (process return codes may be negative). -/
def pyStr (c : Int) : String :=
  if c < 0 then "-" ++ pyStrNat c.natAbs else pyStrNat c.toNat

/-! ## `create_working_dir`

The source creates the directory (if absent) *before* checking whether the
real path of the imagery directory is a substring (Python `in`) of the real
path of the working directory.  `realpath` depends on the ambient filesystem
(symlinks), so it is passed as a parameter; `nowTs` stands for the integral
part of `datetime.datetime.now().timestamp()` used for the default name. -/

structure FS where
  files : List String
  dirs : List String
  deriving DecidableEq, Repr

inductive CwdResult where
  | ok (dir : String)
  | valueError (dir : String)
  deriving DecidableEq, Repr

def mkdirIfAbsent (fs : FS) (d : String) : FS :=
  if d ∈ fs.dirs then fs else { fs with dirs := d :: fs.dirs }

def create_working_dir (fs : FS) (realpath : String → String)
    (working_dir imagery_dir nowTs : String) : FS × CwdResult :=
  let wd := if working_dir = "" then "danesfield-" ++ nowTs else working_dir
  let fs1 := mkdirIfAbsent fs wd
  if pyInB (realpath imagery_dir) (realpath wd) then (fs1, .valueError wd)
  else (fs1, .ok wd)

/-! ## `ensure_complete_modality`

A modality dictionary only ever receives the keys `image`, `info`, `rpc`
(from `collate_input_paths`) and `ortho_img_fpath` (set by `main` after
orthorectification), so it is embedded as a record of four optional paths. -/

structure Roles where
  image : Option String
  info : Option String
  rpc : Option String
  ortho : Option String
  deriving DecidableEq, Repr

def emptyRoles : Roles := ⟨none, none, none, none⟩

/-- Membership test `key in modality_dict` for the keys the source uses. -/
def roleHasKey (m : Roles) (k : String) : Bool :=
  if k = "image" then m.image.isSome
  else if k = "info" then m.info.isSome
  else if k = "rpc" then m.rpc.isSome
  else if k = "ortho_img_fpath" then m.ortho.isSome
  else false

/-- `ensure_complete_modality(modality_dict, require_rpc)` from the source:
`all(key in modality_dict for key in keys)` where `keys = ['image','info']`
plus `'rpc'` when `require_rpc`. -/
def ensure_complete_modality (m : Roles) (require_rpc : Bool := false) : Bool :=
  (["image", "info"] ++ if require_rpc then ["rpc"] else []).all
    (fun k => roleHasKey m k)

/-! ## `run_step`

The step runner is embedded as a transformer on the explicit `FS` state.
The child process is abstracted by the exit code `retcode` it would return;
its side effects on the working tree are out of the driver's control and out
of the claims' scope.  Every filesystem/process action is also recorded in an
event trace so that statements about the *order* of effects (purge before
launch, nothing after a skip) can be made. -/

inductive Ev where
  | removeFile (p : String)
  | mkdir (p : String)
  | spawn
  | createFile (p : String)
  | touch (p : String)
  deriving DecidableEq, Repr

inductive StepOutcome where
  /-- `exit(1)`: the whole driver process halts with exit status 1. -/
  | halted
  | completed (code : Int)
  deriving DecidableEq, Repr

/-- `step_log_fpath = os.path.join(working_dir, '{}.log'.format(step_name))`. -/
def logPath (wd sn : String) : String := wd ++ "/" ++ sn ++ ".log"

/-- `step_returncode_fpath_prefix` from the source. -/
def markerPref (wd sn : String) : String := wd ++ "/" ++ sn ++ ".exitstatus"

/-- Whether file `f` is matched by the glob pattern `pref + ".*"`: it extends
`pref ++ "."` and the remainder contains no path separator.  (The step names
and working directories the driver uses contain no glob metacharacters, so
the pattern text is literal.) -/
def markerGlob (pref f : String) : Bool :=
  (pref ++ ".").data.isPrefixOf f.data &&
    (f.data.drop (pref ++ ".").data.length).all (fun c => c ≠ '/')

/-- The files `glob.glob('{}.*'.format(step_returncode_fpath_prefix))` returns
in our filesystem state. -/
def globFiles (fs : FS) (pref : String) : List String :=
  fs.files.filter (fun f => markerGlob pref f)

/-- Lines 163-166 of the source: remove a previous log file if present, then
remove every file matching `<prefix>.*`.  Returns the new state and the
removal events in order. -/
def clearPrior (fs : FS) (wd sn : String) : FS × List Ev :=
  let lg := logPath wd sn
  let pref := markerPref wd sn
  let fs1 : FS := if lg ∈ fs.files
    then { fs with files := fs.files.filter (fun f => f ≠ lg) } else fs
  let ev1 : List Ev := if lg ∈ fs.files then [Ev.removeFile lg] else []
  let gs := globFiles fs1 pref
  let fs2 : FS := { fs1 with files := fs1.files.filter (fun f => ¬ markerGlob pref f) }
  (fs2, ev1 ++ gs.map Ev.removeFile)

/-- `run_step(working_dir, step_name, command, abort_on_error)`.  `retcode` is
the exit code of the spawned command.  Returns the final filesystem, the
outcome (`halted` embeds the source's `exit(1)`), and the event trace. -/
def run_step (fs : FS) (wd sn : String) (retcode : Int)
    (abort_on_error : Bool := true) : FS × StepOutcome × List Ev :=
  let pref := markerPref wd sn
  if (pref ++ ".0") ∈ fs.files then
    -- already succeeded: return 0 with no side effect at all
    (fs, .completed 0, [])
  else
    let c1 := clearPrior fs wd sn
    let fs1 := c1.1
    let fs2 := mkdirIfAbsent fs1 wd
    let ev2 : List Ev := if wd ∈ fs1.dirs then [] else [Ev.mkdir wd]
    -- subprocess.Popen, then the log file is opened and the merged output
    -- streamed into it
    let lg := logPath wd sn
    let fs3 : FS := { fs2 with files := lg :: fs2.files }
    -- Path('{}.{}'.format(prefix, returncode)).touch()
    let marker := pref ++ "." ++ pyStr retcode
    let fs4 : FS := { fs3 with files := marker :: fs3.files }
    let evs := c1.2 ++ ev2 ++ [Ev.spawn, Ev.createFile lg, Ev.touch marker]
    if abort_on_error ∧ retcode ≠ 0 then (fs4, .halted, evs)
    else (fs4, .completed retcode, evs)

/-- One planned `run_step` invocation of the driver. -/
structure StepInvocation where
  wd : String
  sn : String
  retcode : Int
  abort : Bool
  deriving DecidableEq, Repr

/-- Sequential execution of a list of step invocations, as the driver performs
them: a `halted` outcome (the source's `exit(1)`) stops the whole process, so
later invocations contribute nothing. -/
def runSeq (fs : FS) : List StepInvocation → FS × Bool × List Ev
  | [] => (fs, false, [])
  | s :: rest =>
    let r := run_step fs s.wd s.sn s.retcode s.abort
    match r.2.1 with
    | .halted => (r.1, true, r.2.2)
    | .completed _ =>
      let r2 := runSeq r.1 rest
      (r2.1, r2.2.1, r.2.2 ++ r2.2.2)

/-- The part of a trace before the child process is launched. -/
def preSpawn (tr : List Ev) : List Ev := tr.takeWhile (fun e => e ≠ Ev.spawn)

/-! ## Properties of the decimal rendering -/

theorem natReprAux_zero (acc : List Char) : natReprAux 0 acc = acc := by
  simp [natReprAux]

theorem natReprAux_succ (m : Nat) (acc : List Char) :
    natReprAux (m+1) acc
      = natReprAux ((m+1) / 10) (digitChar ((m+1) % 10) :: acc) := by
  simp [natReprAux]

theorem natReprAux_length (n : Nat) : ∀ acc : List Char, n ≠ 0 →
    acc.length + 1 ≤ (natReprAux n acc).length := by
  induction n using Nat.strong_induction_on with
  | _ n ih =>
    intro acc hn
    match n, hn with
    | (m+1), _ =>
      rw [natReprAux_succ]
      by_cases h10 : (m+1) / 10 = 0
      · rw [h10, natReprAux_zero]
        simp
      · have hlt : (m+1) / 10 < m+1 := Nat.div_lt_self (Nat.succ_pos m) (by omega)
        have := ih ((m+1)/10) hlt (digitChar ((m+1) % 10) :: acc) h10
        simp only [List.length_cons] at this
        omega

theorem natReprAux_mem (n : Nat) : ∀ acc : List Char, ∀ c ∈ natReprAux n acc,
    c ∈ acc ∨ ∃ m, m < 10 ∧ c = digitChar m := by
  induction n using Nat.strong_induction_on with
  | _ n ih =>
    intro acc c hc
    match n with
    | 0 =>
      rw [natReprAux_zero] at hc
      exact Or.inl hc
    | (m+1) =>
      rw [natReprAux_succ] at hc
      have hlt : (m+1) / 10 < m+1 := Nat.div_lt_self (Nat.succ_pos m) (by omega)
      rcases ih ((m+1)/10) hlt _ c hc with h | h
      · rcases List.mem_cons.mp h with h' | h'
        · exact Or.inr ⟨(m+1) % 10, Nat.mod_lt _ (by omega), h'⟩
        · exact Or.inl h'
      · exact Or.inr h

theorem digitChar_ne_zero (m : Nat) (hm : m < 10) (h0 : m ≠ 0) :
    digitChar m ≠ '0' := by
  interval_cases m <;> simp_all <;> decide

theorem digitChar_ne_slash (m : Nat) (hm : m < 10) : digitChar m ≠ '/' := by
  interval_cases m <;> decide

theorem pyStrNat_ne_zero (n : Nat) (hn : n ≠ 0) : pyStrNat n ≠ "0" := by
  unfold pyStrNat
  rw [if_neg hn]
  intro h
  have hd : natReprAux n [] = ['0'] := congrArg String.data h
  by_cases h10 : n / 10 = 0
  · match n, hn with
    | (m+1), _ =>
      rw [natReprAux_succ, h10, natReprAux_zero] at hd
      have hdig : digitChar ((m+1) % 10) = '0' := by
        simp at hd
        exact hd
      have hmod : (m+1) % 10 ≠ 0 := by
        omega
      exact digitChar_ne_zero _ (Nat.mod_lt _ (by omega)) hmod hdig
  · match n, hn with
    | (m+1), _ =>
      rw [natReprAux_succ] at hd
      have := natReprAux_length ((m+1)/10) (digitChar ((m+1) % 10) :: []) h10
      rw [hd] at this
      simp at this

theorem pyStr_ne_zero (c : Int) (hc : c ≠ 0) : pyStr c ≠ "0" := by
  unfold pyStr
  by_cases hneg : c < 0
  · rw [if_pos hneg]
    intro h
    have hd := congrArg String.data h
    rw [String.data_append] at hd
    simp only [show ("-" : String).data = ['-'] from rfl, List.cons_append] at hd
    simp at hd
  · rw [if_neg hneg]
    apply pyStrNat_ne_zero
    omega

theorem pyStrNat_no_slash (n : Nat) : ∀ ch ∈ (pyStrNat n).data, ch ≠ '/' := by
  intro ch hch
  unfold pyStrNat at hch
  by_cases hn : n = 0
  · rw [if_pos hn] at hch
    simp at hch
    rw [hch]
    decide
  · rw [if_neg hn] at hch
    rcases natReprAux_mem n [] ch hch with h | ⟨m, hm, rfl⟩
    · simp at h
    · exact digitChar_ne_slash m hm

theorem pyStr_no_slash (c : Int) : ∀ ch ∈ (pyStr c).data, ch ≠ '/' := by
  intro ch hch
  unfold pyStr at hch
  by_cases hneg : c < 0
  · rw [if_pos hneg, String.data_append] at hch
    rcases List.mem_append.mp hch with h | h
    · simp at h
      rw [h]
      decide
    · exact pyStrNat_no_slash _ ch h
  · rw [if_neg hneg] at hch
    exact pyStrNat_no_slash _ ch hch

/-! ## Properties of the marker-file glob -/

theorem markerGlob_append (pref s : String)
    (hs : ∀ ch ∈ s.data, ch ≠ '/') :
    markerGlob pref ((pref ++ ".") ++ s) = true := by
  unfold markerGlob
  rw [Bool.and_eq_true]
  constructor
  · exact List.isPrefixOf_iff_prefix.mpr
      (by rw [String.data_append]; exact List.prefix_append _ _)
  · have hdata : (pref ++ "." ++ s).data = (pref ++ ".").data ++ s.data := by
      rw [String.data_append]
    rw [hdata, List.drop_left, List.all_eq_true]
    intro x hx
    simpa using hs x hx

/-- The freshly touched marker `<prefix>.<code>` is matched by the purge glob. -/
theorem markerGlob_marker (pref : String) (c : Int) :
    markerGlob pref (pref ++ "." ++ pyStr c) = true :=
  markerGlob_append pref (pyStr c) (pyStr_no_slash c)

/-- The success marker `<prefix>.0` is matched by the purge glob. -/
theorem markerGlob_zero (pref : String) :
    markerGlob pref (pref ++ ".0") = true := by
  have hdot : ("." : String) ++ "0" = ".0" := by decide
  have h : pref ++ ".0" = (pref ++ ".") ++ "0" := by
    rw [String.append_assoc, hdot]
  rw [h]
  exact markerGlob_append pref "0" (by decide)

/-- The log file of the same step is not matched by the marker glob. -/
theorem markerGlob_log (wd sn : String) :
    markerGlob (markerPref wd sn) (logPath wd sn) = false := by
  have h : ¬ ((markerPref wd sn ++ ".").data <+: (logPath wd sn).data) := by
    simp only [markerPref, logPath, String.data_append, List.append_assoc]
    rw [List.prefix_append_right_inj, List.prefix_append_right_inj,
      List.prefix_append_right_inj]
    decide
  rw [Bool.eq_false_iff]
  intro hb
  unfold markerGlob at hb
  rw [Bool.and_eq_true, List.isPrefixOf_iff_prefix] at hb
  exact h hb.1

/-! ## Helper lemmas about traces and `clearPrior` -/

theorem preSpawn_append (l₁ l₂ : List Ev) (h : ∀ e ∈ l₁, e ≠ Ev.spawn) :
    preSpawn (l₁ ++ Ev.spawn :: l₂) = l₁ := by
  induction l₁ with
  | nil => simp [preSpawn, List.takeWhile]
  | cons e es ih =>
    have he : e ≠ Ev.spawn := h e (List.mem_cons_self _ _)
    have hes : ∀ x ∈ es, x ≠ Ev.spawn := fun x hx => h x (List.mem_cons_of_mem _ hx)
    have hd : (decide (e ≠ Ev.spawn)) = true := decide_eq_true he
    simp only [List.cons_append, preSpawn, List.takeWhile, hd, List.append_eq]
    have := ih hes
    simp only [preSpawn] at this
    exact congrArg (List.cons e) this

theorem clearPrior_events (fs : FS) (wd sn : String) :
    ∀ e ∈ (clearPrior fs wd sn).2, ∃ p, e = Ev.removeFile p := by
  intro e he
  unfold clearPrior at he
  simp only at he
  rcases List.mem_append.mp he with h | h
  · by_cases hlg : logPath wd sn ∈ fs.files
    · rw [if_pos hlg] at h
      simp at h
      exact ⟨_, h⟩
    · rw [if_neg hlg] at h
      simp at h
  · rcases List.mem_map.mp h with ⟨p, _, hp⟩
    exact ⟨p, hp.symm⟩

theorem clearPrior_removes (fs : FS) (wd sn : String) :
    (logPath wd sn ∈ fs.files →
      Ev.removeFile (logPath wd sn) ∈ (clearPrior fs wd sn).2) ∧
    ∀ f ∈ fs.files, markerGlob (markerPref wd sn) f = true →
      Ev.removeFile f ∈ (clearPrior fs wd sn).2 := by
  constructor
  · intro hlg
    unfold clearPrior
    simp only
    apply List.mem_append.mpr
    left
    rw [if_pos hlg]
    simp
  · intro f hf hglob
    unfold clearPrior
    simp only
    apply List.mem_append.mpr
    right
    apply List.mem_map.mpr
    refine ⟨f, ?_, rfl⟩
    unfold globFiles
    apply List.mem_filter.mpr
    refine ⟨?_, by simpa using hglob⟩
    by_cases hlg : logPath wd sn ∈ fs.files
    · rw [if_pos hlg]
      apply List.mem_filter.mpr
      refine ⟨hf, ?_⟩
      have hne : f ≠ logPath wd sn := by
        intro heq
        rw [heq, markerGlob_log] at hglob
        exact Bool.false_ne_true hglob
      simpa using hne
    · rw [if_neg hlg]
      exact hf

/-! ## Claims C1-C4 about the step runner -/

/-- C1: if the success marker `<stepName>.exitstatus.0` exists under
`workingDir`, `run_step` returns 0 immediately with no child process spawned
and no filesystem change: the state is returned unchanged and the event trace
is empty. -/
theorem claim_C1_idempotent_skip (fs : FS) (wd sn : String) (c : Int) (ab : Bool)
    (h : (markerPref wd sn ++ ".0") ∈ fs.files) :
    run_step fs wd sn c ab = (fs, .completed 0, []) := by
  unfold run_step
  rw [if_pos h]

/-- Witness for C1 at a concrete filesystem holding the success marker. -/
theorem claim_C1_idempotent_skip_witness :
    run_step ⟨["w/s.exitstatus.0"], ["w"]⟩ "w" "s" 7 true
      = (⟨["w/s.exitstatus.0"], ["w"]⟩, .completed 0, []) :=
  claim_C1_idempotent_skip ⟨["w/s.exitstatus.0"], ["w"]⟩ "w" "s" 7 true (by decide)

/-- C2: when no success marker is present, `run_step` spawns the command, and
before the spawn event it emits a removal of the prior log file (when one
exists) and a removal of every file matching `<stepName>.exitstatus.*`,
whatever exit code each marker encodes. -/
theorem claim_C2_stale_state_purge (fs : FS) (wd sn : String) (c : Int) (ab : Bool)
    (h : (markerPref wd sn ++ ".0") ∉ fs.files) :
    Ev.spawn ∈ (run_step fs wd sn c ab).2.2 ∧
    (logPath wd sn ∈ fs.files →
      Ev.removeFile (logPath wd sn) ∈ preSpawn (run_step fs wd sn c ab).2.2) ∧
    ∀ f ∈ fs.files, markerGlob (markerPref wd sn) f = true →
      Ev.removeFile f ∈ preSpawn (run_step fs wd sn c ab).2.2 := by
  have htr : (run_step fs wd sn c ab).2.2
      = ((clearPrior fs wd sn).2 ++
          (if wd ∈ (clearPrior fs wd sn).1.dirs then [] else [Ev.mkdir wd])) ++
        Ev.spawn :: [Ev.createFile (logPath wd sn),
          Ev.touch (markerPref wd sn ++ "." ++ pyStr c)] := by
    unfold run_step
    rw [if_neg h]
    simp only [List.append_assoc, List.cons_append, List.nil_append]
    split <;> rfl
  have hnospawn : ∀ e ∈ (clearPrior fs wd sn).2 ++
      (if wd ∈ (clearPrior fs wd sn).1.dirs then [] else [Ev.mkdir wd]),
      e ≠ Ev.spawn := by
    intro e he
    rcases List.mem_append.mp he with h' | h'
    · rcases clearPrior_events fs wd sn e h' with ⟨p, rfl⟩
      simp
    · split at h' <;> simp_all
  have hpre : preSpawn (run_step fs wd sn c ab).2.2
      = (clearPrior fs wd sn).2 ++
        (if wd ∈ (clearPrior fs wd sn).1.dirs then [] else [Ev.mkdir wd]) := by
    rw [htr]
    exact preSpawn_append _ _ hnospawn
  refine ⟨?_, ?_, ?_⟩
  · rw [htr]
    simp
  · intro hlg
    rw [hpre]
    exact List.mem_append.mpr (Or.inl ((clearPrior_removes fs wd sn).1 hlg))
  · intro f hf hglob
    rw [hpre]
    exact List.mem_append.mpr (Or.inl ((clearPrior_removes fs wd sn).2 f hf hglob))

/-- Witness for C2: a filesystem holding a stale log and a stale failure
marker for the step. -/
theorem claim_C2_stale_state_purge_witness :
    Ev.spawn ∈ (run_step ⟨["w/s.log", "w/s.exitstatus.3"], ["w"]⟩ "w" "s" 0 true).2.2 ∧
    (logPath "w" "s" ∈ (FS.mk ["w/s.log", "w/s.exitstatus.3"] ["w"]).files →
      Ev.removeFile (logPath "w" "s")
        ∈ preSpawn (run_step ⟨["w/s.log", "w/s.exitstatus.3"], ["w"]⟩ "w" "s" 0 true).2.2) ∧
    ∀ f ∈ (FS.mk ["w/s.log", "w/s.exitstatus.3"] ["w"]).files,
      markerGlob (markerPref "w" "s") f = true →
      Ev.removeFile f
        ∈ preSpawn (run_step ⟨["w/s.log", "w/s.exitstatus.3"], ["w"]⟩ "w" "s" 0 true).2.2 :=
  claim_C2_stale_state_purge ⟨["w/s.log", "w/s.exitstatus.3"], ["w"]⟩ "w" "s" 0 true
    (by decide)

theorem mkdirIfAbsent_files (fs : FS) (d : String) :
    (mkdirIfAbsent fs d).files = fs.files := by
  unfold mkdirIfAbsent
  split <;> rfl

/-- Normal form of the execution branch of `run_step` (no success marker). -/
theorem run_step_else (fs : FS) (wd sn : String) (c : Int) (ab : Bool)
    (h : (markerPref wd sn ++ ".0") ∉ fs.files) :
    run_step fs wd sn c ab
      = (⟨(markerPref wd sn ++ "." ++ pyStr c) :: logPath wd sn ::
            (mkdirIfAbsent (clearPrior fs wd sn).1 wd).files,
          (mkdirIfAbsent (clearPrior fs wd sn).1 wd).dirs⟩,
         (if ab ∧ c ≠ 0 then StepOutcome.halted else StepOutcome.completed c),
         (clearPrior fs wd sn).2 ++
           (if wd ∈ (clearPrior fs wd sn).1.dirs then [] else [Ev.mkdir wd]) ++
           [Ev.spawn, Ev.createFile (logPath wd sn),
            Ev.touch (markerPref wd sn ++ "." ++ pyStr c)]) := by
  unfold run_step
  rw [if_neg h]
  by_cases hab : ab ∧ c ≠ 0
  · rw [if_pos hab, if_pos hab]
  · rw [if_neg hab, if_neg hab]

theorem clearPrior_no_marker (fs : FS) (wd sn : String) :
    ∀ x ∈ (clearPrior fs wd sn).1.files,
      markerGlob (markerPref wd sn) x = false := by
  intro x hx
  unfold clearPrior at hx
  simp only at hx
  have := (List.mem_filter.mp hx).2
  simpa using this

theorem marker_ne_zero_marker (pref : String) (c : Int) (hc : c ≠ 0) :
    pref ++ "." ++ pyStr c ≠ pref ++ ".0" := by
  intro h
  have hdot : ("." : String) ++ "0" = ".0" := by decide
  rw [← hdot, ← String.append_assoc] at h
  have hdata := congrArg String.data h
  rw [String.data_append, String.data_append] at hdata
  have := List.append_cancel_left hdata
  exact pyStr_ne_zero c hc (String.ext this)

theorem marker0_ne_log (wd sn : String) :
    markerPref wd sn ++ ".0" ≠ logPath wd sn := by
  intro h
  have h1 := markerGlob_zero (markerPref wd sn)
  rw [h, markerGlob_log] at h1
  exact Bool.false_ne_true h1

/-- C3: a failing step under `abort_on_error` halts the whole driver process
(the source's `exit(1)`), so a sequence of planned invocations stops at the
failing one: the final state and trace are those of the failing `run_step`
alone, nothing of `rest` is invoked, the only working directory possibly
created is the failing step's own, and the failure marker and log remain on
disk. -/
theorem claim_C3_fatal_propagation (fs : FS) (wd sn : String) (c : Int)
    (rest : List StepInvocation)
    (hc : c ≠ 0) (h : (markerPref wd sn ++ ".0") ∉ fs.files) :
    runSeq fs ({ wd := wd, sn := sn, retcode := c, abort := true } :: rest)
      = ((run_step fs wd sn c true).1, true, (run_step fs wd sn c true).2.2) ∧
    (run_step fs wd sn c true).2.1 = .halted ∧
    (markerPref wd sn ++ "." ++ pyStr c) ∈ (run_step fs wd sn c true).1.files ∧
    logPath wd sn ∈ (run_step fs wd sn c true).1.files ∧
    ∀ d, Ev.mkdir d ∈ (run_step fs wd sn c true).2.2 → d = wd := by
  have habc : (true : Bool) ∧ c ≠ 0 := ⟨rfl, hc⟩
  have hr := run_step_else fs wd sn c true h
  rw [if_pos habc] at hr
  refine ⟨?_, ?_, ?_, ?_, ?_⟩
  · simp only [runSeq]
    rw [hr]
  · rw [hr]
  · rw [hr]
    exact List.mem_cons_self _ _
  · rw [hr]
    exact List.mem_cons_of_mem _ (List.mem_cons_self _ _)
  · intro d hd
    rw [hr] at hd
    simp only at hd
    rcases List.mem_append.mp hd with h' | h'
    · rcases List.mem_append.mp h' with h'' | h''
      · rcases clearPrior_events fs wd sn _ h'' with ⟨p, hp⟩
        exact absurd hp (by simp)
      · split at h''
        · simp at h''
        · simp at h''
          exact h''
    · simp at h'

/-- Witness for C3: a step exiting with code 3 followed by a pending step. -/
theorem claim_C3_fatal_propagation_witness :
    runSeq ⟨[], []⟩ ({ wd := "w", sn := "s", retcode := 3, abort := true } ::
        [{ wd := "w2", sn := "t", retcode := 0, abort := true }])
      = ((run_step ⟨[], []⟩ "w" "s" 3 true).1, true,
         (run_step ⟨[], []⟩ "w" "s" 3 true).2.2) ∧
    (run_step ⟨[], []⟩ "w" "s" 3 true).2.1 = .halted ∧
    (markerPref "w" "s" ++ "." ++ pyStr 3) ∈ (run_step ⟨[], []⟩ "w" "s" 3 true).1.files ∧
    logPath "w" "s" ∈ (run_step ⟨[], []⟩ "w" "s" 3 true).1.files ∧
    ∀ d, Ev.mkdir d ∈ (run_step ⟨[], []⟩ "w" "s" 3 true).2.2 → d = "w" :=
  claim_C3_fatal_propagation ⟨[], []⟩ "w" "s" 3
    [{ wd := "w2", sn := "t", retcode := 0, abort := true }] (by decide) (by decide)

/-- C4: after the execution branch runs a command with exit code `c`, exactly
one file matches the marker glob for that step — `<prefix>.<c>` with the code
rendered literally by Python's `str` — and for `c ≠ 0` the success check
(presence of `<prefix>.0`) is false afterwards. -/
theorem claim_C4_marker_literal (fs : FS) (wd sn : String) (c : Int) (ab : Bool)
    (h : (markerPref wd sn ++ ".0") ∉ fs.files) :
    (run_step fs wd sn c ab).1.files.filter
        (fun f => markerGlob (markerPref wd sn) f)
      = [markerPref wd sn ++ "." ++ pyStr c] ∧
    (c ≠ 0 → (markerPref wd sn ++ ".0") ∉ (run_step fs wd sn c ab).1.files) := by
  rw [run_step_else fs wd sn c ab h]
  simp only [mkdirIfAbsent_files]
  constructor
  · rw [List.filter_cons_of_pos (markerGlob_marker _ c),
      List.filter_cons_of_neg (by rw [markerGlob_log]; simp)]
    rw [List.filter_eq_nil_iff.mpr]
    intro a ha
    rw [clearPrior_no_marker fs wd sn a ha]
    simp
  · intro hc hmem
    rcases List.mem_cons.mp hmem with h' | h'
    · exact marker_ne_zero_marker _ c hc h'.symm
    · rcases List.mem_cons.mp h' with h'' | h''
      · exact marker0_ne_log wd sn h''
      · have := clearPrior_no_marker fs wd sn _ h''
        rw [markerGlob_zero] at this
        simp at this

/-- Witness for C4: a stale failure marker `.5`, command exits with code 3. -/
theorem claim_C4_marker_literal_witness :
    (run_step ⟨["w/s.exitstatus.5"], []⟩ "w" "s" 3 true).1.files.filter
        (fun f => markerGlob (markerPref "w" "s") f)
      = [markerPref "w" "s" ++ "." ++ pyStr 3] ∧
    ((3 : Int) ≠ 0 →
      (markerPref "w" "s" ++ ".0") ∉ (run_step ⟨["w/s.exitstatus.5"], []⟩ "w" "s" 3 true).1.files) :=
  claim_C4_marker_literal ⟨["w/s.exitstatus.5"], []⟩ "w" "s" 3 true (by decide)

/-! ## Claims C8 and C10 -/

/-- C8: a modality dictionary is judged complete with `require_rpc=true` iff
it holds the roles `image`, `info` and `rpc`, and with `require_rpc=false`
iff it holds `image` and `info`; so an `rpc`-less bundle with `image` and
`info` is incomplete exactly when RPC enforcement is active. -/
theorem claim_C8_rpc_gating (m : Roles) :
    ensure_complete_modality m true
      = (m.image.isSome && m.info.isSome && m.rpc.isSome) ∧
    ensure_complete_modality m false = (m.image.isSome && m.info.isSome) := by
  constructor <;> simp [ensure_complete_modality, roleHasKey, Bool.and_assoc]

theorem mem_mkdirIfAbsent (fs : FS) (d : String) : d ∈ (mkdirIfAbsent fs d).dirs := by
  unfold mkdirIfAbsent
  split <;> simp_all

/-- C10: whenever the resolved real path of the imagery directory occurs as a
substring (Python `in`) of the resolved real path of the working directory —
including sibling directories whose resolved path merely extends the string —
`create_working_dir` raises `ValueError`, and the working directory exists on
disk at that point because the check runs only after the `mkdir`. -/
theorem claim_C10_substring_check_after_mkdir (fs : FS)
    (realpath : String → String) (wd imd ts : String) (hwd : wd ≠ "")
    (hsub : pyInB (realpath imd) (realpath wd) = true) :
    (create_working_dir fs realpath wd imd ts).2 = .valueError wd ∧
    wd ∈ (create_working_dir fs realpath wd imd ts).1.dirs := by
  unfold create_working_dir
  simp only [if_neg hwd]
  rw [if_pos hsub]
  exact ⟨rfl, mem_mkdirIfAbsent fs wd⟩

/-- Witness for C10: a *sibling* of the imagery directory — not a
subdirectory, its resolved path merely extends the imagery path string — is
rejected, and the directory exists when the error is raised. -/
theorem claim_C10_substring_check_after_mkdir_witness :
    (create_working_dir ⟨[], []⟩ id "/data/imagery2" "/data/imagery" "0").2
      = .valueError "/data/imagery2" ∧
    "/data/imagery2" ∈ (create_working_dir ⟨[], []⟩ id "/data/imagery2" "/data/imagery" "0").1.dirs :=
  claim_C10_substring_check_after_mkdir ⟨[], []⟩ id "/data/imagery2" "/data/imagery" "0"
    (by decide) (by decide)

/-! ## The collation pattern

`collate_input_paths` matches the uppercased basename against

`(?P<gra>GRA_)?.*(?P<prefix>[0-9]{2}[A-Z]{3}[0-9]{8})\-(?P<modality>P1BS|M1BS|A1BS)\-(?P<trail>[0-9]{12}_[0-9]{2}_P[0-9]{3}).*(?P<ext>\..+)$`

with `re.match`.  The pattern is fixed, so it is embedded directly with
Python's backtracking semantics: `re.match` anchors at the start, `.`
matches any character except a newline, each `.*` is greedy (the rightmost
feasible split is preferred), `$` matches at the end of the string or just
before one final newline, and the optional `GRA_` group is consumed first
when present. -/

structure MatchRes where
  gra : Bool
  pref : String
  modality : String
  trail : String
  ext : String
  deriving DecidableEq, Repr

/-- Greedy `.*` followed by the residual pattern `p`: try the longest
consumption first (never across a newline), falling back leftwards. -/
def greedyStar {α : Type} (p : List Char → Option α) : List Char → Option α
  | [] => p []
  | c :: rest =>
    match (if c = '\n' then none else greedyStar p rest) with
    | some r => some r
    | none => p (c :: rest)

/-- `[0-9]{2}[A-Z]{3}[0-9]{8}`: the acquisition prefix group. -/
def prefCheck (cs : List Char) : Bool :=
  (cs.length == 13) && (cs.take 2).all Char.isDigit &&
    ((cs.drop 2).take 3).all (fun c => 'A' ≤ c && c ≤ 'Z') &&
    (cs.drop 5).all Char.isDigit

/-- `P1BS|M1BS|A1BS`: the modality group. -/
def modCheck (cs : List Char) : Bool :=
  (cs == "P1BS".data) || (cs == "M1BS".data) || (cs == "A1BS".data)

/-- `[0-9]{12}_[0-9]{2}_P[0-9]{3}`: the trailing token group. -/
def trailCheck (cs : List Char) : Bool :=
  (cs.length == 20) && (cs.take 12).all Char.isDigit &&
    (cs[12]? == some '_') && ((cs.drop 13).take 2).all Char.isDigit &&
    (cs[15]? == some '_') && (cs[16]? == some 'P') &&
    (cs.drop 17).all Char.isDigit

/-- Match a fixed-length group at the head of the input. -/
def takeSeg (n : Nat) (check : List Char → Bool) (cs : List Char) :
    Option (List Char × List Char) :=
  if check (cs.take n) then some (cs.take n, cs.drop n) else none

/-- Match `(prefix)\-(modality)\-(trail)` at the head of `cs`. -/
def coreAt (cs : List Char) :
    Option (List Char × List Char × List Char × List Char) :=
  match takeSeg 13 prefCheck cs with
  | none => none
  | some (pf, r1) =>
    match r1 with
    | '-' :: r2 =>
      match takeSeg 4 modCheck r2 with
      | none => none
      | some (md, r3) =>
        match r3 with
        | '-' :: r4 =>
          match takeSeg 20 trailCheck r4 with
          | none => none
          | some (tr, r5) => some (pf, md, tr, r5)
        | _ => none
    | _ => none

/-- `(\..+)$`: a dot, then at least one non-newline character, reaching the
end of the string (or just before one final newline). -/
def extMatch (cs : List Char) : Option (List Char) :=
  match cs with
  | '.' :: rest =>
    if rest.all (fun c => c ≠ '\n') then
      if rest.isEmpty then none else some ('.' :: rest)
    else if (rest.getLast? == some '\n') && rest.dropLast.all (fun c => c ≠ '\n')
        && !rest.dropLast.isEmpty then
      some ('.' :: rest.dropLast)
    else none
  | _ => none

/-- Match `(prefix)\-(modality)\-(trail).*(\..+)$` starting exactly at `cs`. -/
def coreExt (cs : List Char) :
    Option (List Char × List Char × List Char × List Char) :=
  match coreAt cs with
  | none => none
  | some (pf, md, tr, r5) =>
    match greedyStar extMatch r5 with
    | none => none
    | some ext => some (pf, md, tr, ext)

/-- `input_re.match(os.path.basename(path).upper())`, returning the four
capture groups. -/
def matchInput (s : String) : Option MatchRes :=
  let cs := s.data
  if "GRA_".data.isPrefixOf cs then
    match greedyStar coreExt (cs.drop 4) with
    | some (pf, md, tr, ext) => some ⟨true, ⟨pf⟩, ⟨md⟩, ⟨tr⟩, ⟨ext⟩⟩
    | none =>
      match greedyStar coreExt cs with
      | some (pf, md, tr, ext) => some ⟨false, ⟨pf⟩, ⟨md⟩, ⟨tr⟩, ⟨ext⟩⟩
      | none => none
  else
    match greedyStar coreExt cs with
    | some (pf, md, tr, ext) => some ⟨false, ⟨pf⟩, ⟨md⟩, ⟨tr⟩, ⟨ext⟩⟩
    | none => none

/-! ## Collation -/

inductive Modality where
  | pan | msi | swir
  deriving DecidableEq, Repr

/-- `modality_map = {'P1BS': 'pan', 'M1BS': 'msi', 'A1BS': 'swir'}` (total on
the closed set the pattern admits). -/
def modality_map (s : String) : Modality :=
  if s = "P1BS" then .pan else if s = "M1BS" then .msi else .swir

/-- One acquisition record: modality name → role dictionary.  Only the three
modality keys the source can form occur. -/
structure CollectionRecord where
  pan : Option Roles
  msi : Option Roles
  swir : Option Roles
  deriving DecidableEq, Repr

def CollectionRecord.empty : CollectionRecord := ⟨none, none, none⟩

def CollectionRecord.getMod (r : CollectionRecord) : Modality → Option Roles
  | .pan => r.pan
  | .msi => r.msi
  | .swir => r.swir

def CollectionRecord.setMod (r : CollectionRecord) :
    Modality → Roles → CollectionRecord
  | .pan, v => { r with pan := some v }
  | .msi, v => { r with msi := some v }
  | .swir, v => { r with swir := some v }

/-- The collation dictionary, as an insertion-ordered association list
(Python dicts preserve insertion order, which `main` later relies on). -/
def hasKey (coll : List (String × CollectionRecord)) (k : String) : Bool :=
  coll.any (fun kv => kv.1 == k)

def updateKey (coll : List (String × CollectionRecord)) (k : String)
    (f : CollectionRecord → CollectionRecord) : List (String × CollectionRecord) :=
  coll.map (fun kv => if kv.1 = k then (kv.1, f kv.2) else kv)

/-- The body of the `for path in paths` loop of `collate_input_paths`. -/
def collateStep (coll : List (String × CollectionRecord)) (path : String) :
    List (String × CollectionRecord) :=
  match matchInput (upperStr (basenameStr path)) with
  | none => coll
  | some m =>
    let key := m.pref ++ "-" ++ m.trail
    let md := modality_map m.modality
    let coll1 :=
      if hasKey coll key then
        updateKey coll key (fun r =>
          if (r.getMod md).isSome then r else r.setMod md emptyRoles)
      else coll ++ [(key, CollectionRecord.empty.setMod md emptyRoles)]
    updateKey coll1 key (fun r =>
      let ro := (r.getMod md).getD emptyRoles
      if m.gra && strEndsWith m.ext ".RPC" then
        r.setMod md { ro with rpc := some path }
      else if strEndsWith m.ext ".NTF" then
        r.setMod md { ro with image := some path }
      else if strEndsWith m.ext ".TAR" then
        r.setMod md { ro with info := some path }
      else r)

def collate_input_paths (paths : List String) : List (String × CollectionRecord) :=
  paths.foldl collateStep []

/-- The completeness condition of the pruning loop in `main` (lines 280-281):
`'msi' in files and ensure_complete_modality(files['msi'], use_rpcs) and
'pan' in files and ensure_complete_modality(files['pan'], use_rpcs)`. -/
def complete_pair (files : CollectionRecord) (use_rpcs : Bool) : Bool :=
  match files.msi with
  | some msiB =>
    ensure_complete_modality msiB use_rpcs &&
      (match files.pan with
       | some panB => ensure_complete_modality panB use_rpcs
       | none => false)
  | none => false

/-- Lines 277-289 of `main`: collect the ids of incomplete records, then
delete them from the dictionary. -/
def pruneIncomplete (coll : List (String × CollectionRecord)) (use_rpcs : Bool) :
    List (String × CollectionRecord) :=
  let incomplete_ids :=
    (coll.filter (fun kv => ! complete_pair kv.2 use_rpcs)).map (fun kv => kv.1)
  coll.filter (fun kv => ! incomplete_ids.contains kv.1)

/-! ## Claims C6 and C7 -/

/-- C6: the two NTF images plus matching TAR info files collate into exactly
one acquisition key `prefix + "-" + trail`, with complete `pan` and `msi`
bundles (roles `image` and `info`), and the pruning step of `main` (with RPC
enforcement off, as in a run without an `rpc_dir`) retains the record. -/
theorem claim_C6_collation_correctness :
    collate_input_paths
        ["12ABC34567890-P1BS-123456789012_01_P001.NTF",
         "12ABC34567890-P1BS-123456789012_01_P001.TAR",
         "12ABC34567890-M1BS-123456789012_01_P001.NTF",
         "12ABC34567890-M1BS-123456789012_01_P001.TAR"]
      = [("12ABC34567890" ++ "-" ++ "123456789012_01_P001",
          { pan := some { image := some "12ABC34567890-P1BS-123456789012_01_P001.NTF",
                          info := some "12ABC34567890-P1BS-123456789012_01_P001.TAR",
                          rpc := none, ortho := none },
            msi := some { image := some "12ABC34567890-M1BS-123456789012_01_P001.NTF",
                          info := some "12ABC34567890-M1BS-123456789012_01_P001.TAR",
                          rpc := none, ortho := none },
            swir := none })] ∧
    pruneIncomplete
        (collate_input_paths
          ["12ABC34567890-P1BS-123456789012_01_P001.NTF",
           "12ABC34567890-P1BS-123456789012_01_P001.TAR",
           "12ABC34567890-M1BS-123456789012_01_P001.NTF",
           "12ABC34567890-M1BS-123456789012_01_P001.TAR"]) false
      = collate_input_paths
          ["12ABC34567890-P1BS-123456789012_01_P001.NTF",
           "12ABC34567890-P1BS-123456789012_01_P001.TAR",
           "12ABC34567890-M1BS-123456789012_01_P001.NTF",
           "12ABC34567890-M1BS-123456789012_01_P001.TAR"] ∧
    ∀ kv ∈ collate_input_paths
          ["12ABC34567890-P1BS-123456789012_01_P001.NTF",
           "12ABC34567890-P1BS-123456789012_01_P001.TAR",
           "12ABC34567890-M1BS-123456789012_01_P001.NTF",
           "12ABC34567890-M1BS-123456789012_01_P001.TAR"],
      complete_pair kv.2 false = true := by
  refine ⟨by decide, by decide, by decide⟩

/-- C7: every record surviving the pruning of `main` has a `pan` and an `msi`
bundle, each complete under the active role-requirement policy, and a record
with a `pan` bundle but no `msi` bundle never survives (it is removed from
the dictionary; the source only logs a warning). -/
theorem claim_C7_pruning_invariant (use_rpcs : Bool)
    (coll : List (String × CollectionRecord)) (k : String) (r : CollectionRecord) :
    ((k, r) ∈ pruneIncomplete coll use_rpcs →
      ∃ panB msiB, r.pan = some panB ∧ r.msi = some msiB ∧
        ensure_complete_modality panB use_rpcs = true ∧
        ensure_complete_modality msiB use_rpcs = true) ∧
    (r.msi = none → (k, r) ∈ coll → (k, r) ∉ pruneIncomplete coll use_rpcs) := by
  have hmem : ∀ kv : String × CollectionRecord, kv ∈ pruneIncomplete coll use_rpcs →
      complete_pair kv.2 use_rpcs = true := by
    intro kv hkv
    unfold pruneIncomplete at hkv
    simp only at hkv
    have h2 := List.mem_filter.mp hkv
    have h3 := h2.2
    simp at h3
    exact h3 kv.2 (by rw [Prod.mk.eta]; exact h2.1)
  constructor
  · intro hk
    have hc := hmem (k, r) hk
    unfold complete_pair at hc
    cases hmsi : r.msi with
    | none => rw [hmsi] at hc; simp at hc
    | some msiB =>
      rw [hmsi] at hc
      cases hpan : r.pan with
      | none => rw [hpan] at hc; simp at hc
      | some panB =>
        rw [hpan] at hc
        rw [Bool.and_eq_true] at hc
        exact ⟨panB, msiB, rfl, rfl, hc.2, hc.1⟩
  · intro hmsi hcoll hk
    have hc := hmem (k, r) hk
    unfold complete_pair at hc
    rw [hmsi] at hc
    simp at hc

/-- Witness for C7: a pan-only record is pruned away. -/
theorem claim_C7_pruning_invariant_witness :
    ("k", CollectionRecord.mk (some ⟨some "i", some "t", none, none⟩) none none)
      ∉ pruneIncomplete
          [("k", CollectionRecord.mk (some ⟨some "i", some "t", none, none⟩) none none)]
          false :=
  (claim_C7_pruning_invariant false
      [("k", CollectionRecord.mk (some ⟨some "i", some "t", none, none⟩) none none)]
      "k" (CollectionRecord.mk (some ⟨some "i", some "t", none, none⟩) none none)).2
    rfl (by decide)

/-! ## Claim C9: the matching policy -/

theorem greedyStar_some {α : Type} (p : List Char → Option α) :
    ∀ cs a, greedyStar p cs = some a → ∃ t, p t = some a := by
  intro cs
  induction cs with
  | nil =>
    intro a h
    exact ⟨[], by simpa [greedyStar] using h⟩
  | cons c rest ih =>
    intro a h
    simp only [greedyStar] at h
    split at h
    case h_1 r heq =>
      rw [Option.some.injEq] at h
      subst h
      by_cases hc : c = '\n'
      · rw [if_pos hc] at heq
        exact absurd heq (by simp)
      · rw [if_neg hc] at heq
        exact ih r heq
    case h_2 => exact ⟨c :: rest, h⟩

theorem takeSeg_some (n : Nat) (check : List Char → Bool) (cs seg rest : List Char)
    (h : takeSeg n check cs = some (seg, rest)) :
    check seg = true ∧ seg = cs.take n := by
  unfold takeSeg at h
  split at h
  case isTrue hchk =>
    rw [Option.some.injEq, Prod.mk.injEq] at h
    exact ⟨h.1 ▸ hchk, h.1.symm⟩
  case isFalse => exact absurd h (by simp)

theorem coreAt_checks (cs pf md tr r5 : List Char)
    (h : coreAt cs = some (pf, md, tr, r5)) :
    prefCheck pf = true ∧ modCheck md = true ∧ trailCheck tr = true := by
  unfold coreAt at h
  split at h
  · exact absurd h (by simp)
  case h_2 pf1 r1 heq1 =>
    split at h
    case h_1 r2 =>
      split at h
      · exact absurd h (by simp)
      case h_2 md1 r3 heq2 =>
        split at h
        case h_1 r4 =>
          split at h
          · exact absurd h (by simp)
          case h_2 tr1 r51 heq3 =>
            rw [Option.some.injEq, Prod.mk.injEq, Prod.mk.injEq, Prod.mk.injEq] at h
            obtain ⟨hpf, hmd, htr, -⟩ := h
            subst hpf; subst hmd; subst htr
            exact ⟨(takeSeg_some _ _ _ _ _ heq1).1,
                   (takeSeg_some _ _ _ _ _ heq2).1,
                   (takeSeg_some _ _ _ _ _ heq3).1⟩
        · exact absurd h (by simp)
    · exact absurd h (by simp)

theorem extMatch_shape (cs ext : List Char) (h : extMatch cs = some ext) :
    ∃ body, body ≠ [] ∧ ext = '.' :: body := by
  unfold extMatch at h
  split at h
  case h_1 rest =>
    split at h
    · split at h
      · exact absurd h (by simp)
      case isFalse hne =>
        rw [Option.some.injEq] at h
        exact ⟨rest, by simpa [List.isEmpty_iff] using hne, h.symm⟩
    · split at h
      case isTrue hcond =>
        rw [Option.some.injEq] at h
        refine ⟨rest.dropLast, ?_, h.symm⟩
        have h3 : (!rest.dropLast.isEmpty) = true := by
          simp only [Bool.and_eq_true] at hcond
          exact hcond.2
        simpa [List.isEmpty_iff] using h3
      case isFalse => exact absurd h (by simp)
  case h_2 => exact absurd h (by simp)

theorem coreExt_shape (t pf md tr ext : List Char)
    (h : coreExt t = some (pf, md, tr, ext)) :
    prefCheck pf = true ∧ modCheck md = true ∧ trailCheck tr = true ∧
    ∃ body, body ≠ [] ∧ ext = '.' :: body := by
  unfold coreExt at h
  split at h
  · exact absurd h (by simp)
  case h_2 pf1 md1 tr1 r5 heq1 =>
    split at h
    · exact absurd h (by simp)
    case h_2 ext1 heq2 =>
      rw [Option.some.injEq, Prod.mk.injEq, Prod.mk.injEq, Prod.mk.injEq] at h
      obtain ⟨hpf, hmd, htr, hext⟩ := h
      subst hpf; subst hmd; subst htr; subst hext
      obtain ⟨h1, h2, h3⟩ := coreAt_checks _ _ _ _ _ heq1
      obtain ⟨t', ht'⟩ := greedyStar_some extMatch _ _ heq2
      exact ⟨h1, h2, h3, extMatch_shape _ _ ht'⟩

theorem matchGroups_shape (t pf md tr ext : List Char)
    (h : greedyStar coreExt t = some (pf, md, tr, ext)) :
    prefCheck pf = true ∧ modCheck md = true ∧ trailCheck tr = true ∧
    ∃ body, body ≠ [] ∧ ext = '.' :: body := by
  obtain ⟨t', ht'⟩ := greedyStar_some coreExt t _ h
  exact coreExt_shape t' pf md tr ext ht'

theorem matchRes_chars (m : MatchRes) (pf md tr ext : List Char)
    (hm : m.pref = ⟨pf⟩ ∧ m.modality = ⟨md⟩ ∧ m.trail = ⟨tr⟩ ∧ m.ext = ⟨ext⟩)
    (hp : prefCheck pf = true) (hmd : modCheck md = true)
    (ht : trailCheck tr = true) (he : ∃ body, body ≠ [] ∧ ext = '.' :: body) :
    m.pref.length = 13 ∧
    (m.pref.data.take 2).all Char.isDigit = true ∧
    ((m.pref.data.drop 2).take 3).all (fun c => 'A' ≤ c && c ≤ 'Z') = true ∧
    (m.pref.data.drop 5).all Char.isDigit = true ∧
    (m.modality = "P1BS" ∨ m.modality = "M1BS" ∨ m.modality = "A1BS") ∧
    m.trail.length = 20 ∧
    m.ext.data.head? = some '.' ∧ 2 ≤ m.ext.length := by
  obtain ⟨h1, h2, h3, h4⟩ := hm
  simp only [prefCheck, Bool.and_eq_true, beq_iff_eq] at hp
  obtain ⟨⟨⟨hlen, hd2⟩, hu3⟩, hd8⟩ := hp
  simp only [trailCheck, Bool.and_eq_true, beq_iff_eq] at ht
  have htlen : tr.length = 20 := ht.1.1.1.1.1.1
  simp only [modCheck, Bool.or_eq_true, beq_iff_eq] at hmd
  obtain ⟨body, hbody, hext⟩ := he
  rw [h1, h2, h3, h4]
  refine ⟨hlen, hd2, hu3, hd8, ?_, htlen, ?_, ?_⟩
  · rcases hmd with (h | h) | h
    · exact Or.inl (String.ext h)
    · exact Or.inr (Or.inl (String.ext h))
    · exact Or.inr (Or.inr (String.ext h))
  · rw [hext]
    rfl
  · have hpos : 0 < body.length := List.length_pos.mpr hbody
    have : (String.mk ext).length = ext.length := rfl
    rw [this, hext]
    simp only [List.length_cons]
    omega

theorem matchInput_branch (m : MatchRes) (t pf md tr ext : List Char)
    (h : greedyStar coreExt t = some (pf, md, tr, ext))
    (hm : m.pref = ⟨pf⟩ ∧ m.modality = ⟨md⟩ ∧ m.trail = ⟨tr⟩ ∧ m.ext = ⟨ext⟩) :
    m.pref.length = 13 ∧
    (m.pref.data.take 2).all Char.isDigit = true ∧
    ((m.pref.data.drop 2).take 3).all (fun c => 'A' ≤ c && c ≤ 'Z') = true ∧
    (m.pref.data.drop 5).all Char.isDigit = true ∧
    (m.modality = "P1BS" ∨ m.modality = "M1BS" ∨ m.modality = "A1BS") ∧
    m.trail.length = 20 ∧
    m.ext.data.head? = some '.' ∧ 2 ≤ m.ext.length := by
  obtain ⟨hp, hmd, htr, he⟩ := matchGroups_shape t pf md tr ext h
  exact matchRes_chars m pf md tr ext hm hp hmd htr he

/-- C9 counterexample: the canonical vendor filename *does* match the
pattern, and its captured acquisition prefix has 13 characters and its
trailing token 20 — not 12 and 17 as the claim counts them. -/
theorem claim_C9_counterexample :
    ((matchInput "12ABC34567890-P1BS-123456789012_01_P001.NTF").map
        (fun m => decide (m.pref.length = 12 ∧ m.trail.length = 17)))
      = some false := by decide

/-- C9 (amended: the fixed structural pattern captures a 13-character
acquisition prefix — 2 digits, 3 letters, 8 digits — and a 20-character
trailing token; everything else as claimed): a successful match always has
groups of exactly this shape (modality from the closed set, extension a dot
plus at least one character), and a path whose uppercased basename does not
match the pattern is silently ignored, leaving the collation mapping
unchanged. -/
theorem claim_C9_matching_policy :
    (∀ (paths : List String) (p : String),
      matchInput (upperStr (basenameStr p)) = none →
      collate_input_paths (paths ++ [p]) = collate_input_paths paths) ∧
    (∀ (s : String) (m : MatchRes), matchInput s = some m →
      m.pref.length = 13 ∧
      (m.pref.data.take 2).all Char.isDigit = true ∧
      ((m.pref.data.drop 2).take 3).all (fun c => 'A' ≤ c && c ≤ 'Z') = true ∧
      (m.pref.data.drop 5).all Char.isDigit = true ∧
      (m.modality = "P1BS" ∨ m.modality = "M1BS" ∨ m.modality = "A1BS") ∧
      m.trail.length = 20 ∧
      m.ext.data.head? = some '.' ∧ 2 ≤ m.ext.length) := by
  constructor
  · intro paths p hn
    unfold collate_input_paths
    rw [List.foldl_append]
    simp [collateStep, hn]
  · intro s m h
    unfold matchInput at h
    dsimp only at h
    split at h
    · split at h
      case h_1 pf md tr ext heq =>
        rw [Option.some.injEq] at h
        subst h
        exact matchInput_branch _ _ pf md tr ext heq ⟨rfl, rfl, rfl, rfl⟩
      case h_2 heq0 =>
        split at h
        case h_1 pf md tr ext heq =>
          rw [Option.some.injEq] at h
          subst h
          exact matchInput_branch _ _ pf md tr ext heq ⟨rfl, rfl, rfl, rfl⟩
        case h_2 => exact absurd h (by simp)
    · split at h
      case h_1 pf md tr ext heq =>
        rw [Option.some.injEq] at h
        subst h
        exact matchInput_branch _ _ pf md tr ext heq ⟨rfl, rfl, rfl, rfl⟩
      case h_2 => exact absurd h (by simp)

/-- Witness for C9: appending a non-matching path changes nothing. -/
theorem claim_C9_matching_policy_witness :
    collate_input_paths
        (["12ABC34567890-P1BS-123456789012_01_P001.NTF"] ++ ["README.md"])
      = collate_input_paths ["12ABC34567890-P1BS-123456789012_01_P001.NTF"] :=
  claim_C9_matching_policy.1 ["12ABC34567890-P1BS-123456789012_01_P001.NTF"]
    "README.md" (by decide)

/-! ## The pipeline driver (`main`, lines 199-561)

`main` is a straight line of `run_step` invocations; it is embedded as the
list of `StepCall`s (working dir, step name, argument vector) the driver
performs, in order, on the success path.  Configuration values are the
`DriverCfg` fields; the three `glob.glob` scans `main` performs between
stages (`crop-and-pansharpen` outputs, roof meshes, roof obj files) read the
ambient filesystem and are passed as explicit parameters. -/

/-- Python `str.split(' ')`: split on every single space, keeping empties. -/
def splitOnSpace : List Char → List (List Char)
  | [] => [[]]
  | c :: rest =>
    let r := splitOnSpace rest
    if c = ' ' then [] :: r
    else
      match r with
      | [] => [[c]]
      | h :: t => (c :: h) :: t

def pySplitSpace (s : String) : List String :=
  (splitOnSpace s.data).map (fun l => ⟨l⟩)

structure StepCall where
  wd : String
  sn : String
  args : List String
  deriving DecidableEq, Repr

structure DriverCfg where
  /-- `os.path.dirname(os.path.realpath(__file__))` in `relative_tool_path`. -/
  toolsDir : String
  /-- The working directory returned by `create_working_dir`. -/
  workingDir : String
  /-- `config['aoi']['name']`. -/
  aoiName : String
  /-- `str(float(config['params'].get('gsd', 0.25)))`: the rendered ground
  sample distance; the driver only ever passes it through as an argument. -/
  gsdStr : String
  /-- `config['paths']['p3d_fpath']`. -/
  p3dFile : String
  /-- `config['aoi'].get('bounds')`. -/
  bounds : Option String
  /-- `config['material']['model_fpath']`. -/
  materialModelFpath : String
  /-- `config.get('material', 'batch_size')` when the option is present. -/
  materialBatchSize : Option String
  /-- `config['material'].getboolean('cuda')`. -/
  materialCuda : Bool
  /-- `config['roof']['model_dir']`. -/
  roofModelDir : String
  /-- `config['roof']['model_prefix']`. -/
  roofModelPrefVal : String
  /-- `config['metrics']['ref_data_dir']`. -/
  metricsRefDataDir : String
  /-- `config['metrics']['ref_data_prefix']`. -/
  metricsRefDataPrefVal : String
  deriving DecidableEq, Repr

def relative_tool_path (toolsDir rel : String) : String := pjoin toolsDir rel

def py_cmd (toolPath : String) : List String := ["python", "-u", toolPath]

/-- Role access `files[mod]['image']` for records the driver runs on (pruning
guarantees the mandatory roles; a missing key would be a `KeyError` crash in
the source). -/
def roleImage (b : Option Roles) : String := ((b.bind fun x => x.image).getD "")

def roleInfo (b : Option Roles) : String := ((b.bind fun x => x.info).getD "")

def roleOrtho (b : Option Roles) : String := ((b.bind fun x => x.ortho).getD "")

/-- `files[mod].get('rpc', None)`. -/
def roleRpc (b : Option Roles) : Option String := b.bind fun x => x.rpc

/-- `files['msi']['ortho_img_fpath'] = msi_ortho_img_fpath` (line 349). -/
def setMsiOrtho (r : CollectionRecord) (p : String) : CollectionRecord :=
  { r with msi := some { (r.msi.getD emptyRoles) with ortho := some p } }

def generate_dsm_outdir (cfg : DriverCfg) : String :=
  pjoin cfg.workingDir "generate-dsm"

def dsm_file (cfg : DriverCfg) : String :=
  pjoin (generate_dsm_outdir cfg) (cfg.aoiName ++ "_P3D_DSM.tif")

def fit_dtm_outdir (cfg : DriverCfg) : String := pjoin cfg.workingDir "fit-dtm"

def dtm_file (cfg : DriverCfg) : String :=
  pjoin (fit_dtm_outdir cfg) (cfg.aoiName ++ "_DTM.tif")

def orthorectify_outdir (cfg : DriverCfg) : String :=
  pjoin cfg.workingDir "orthorectify"

def ndvi_outdir (cfg : DriverCfg) : String := pjoin cfg.workingDir "compute-ndvi"

def ndvi_output_fpath (cfg : DriverCfg) : String := pjoin (ndvi_outdir cfg) "ndvi.tif"

def get_road_vector_outdir (cfg : DriverCfg) : String :=
  pjoin cfg.workingDir "get-road-vector"

def road_vector_output_fpath (cfg : DriverCfg) : String :=
  pjoin (get_road_vector_outdir cfg) "road_vector.geojson"

def seg_by_height_outdir (cfg : DriverCfg) : String :=
  pjoin cfg.workingDir "segment-by-height"

def threshold_output_mask_fpath (cfg : DriverCfg) : String :=
  pjoin (seg_by_height_outdir cfg) "threshold_CLS.tif"

def material_classifier_outdir (cfg : DriverCfg) : String :=
  pjoin cfg.workingDir "material-classification"

def roof_geon_extraction_outdir (cfg : DriverCfg) : String :=
  pjoin cfg.workingDir "roof-geon-extraction"

def crop_and_pansharpen_outdir (cfg : DriverCfg) : String :=
  pjoin cfg.workingDir "crop-and-pansharpen"

def texture_mapping_outdir (cfg : DriverCfg) : String :=
  pjoin cfg.workingDir "texture-mapping"

def buildings_to_dsm_outdir (cfg : DriverCfg) : String :=
  pjoin cfg.workingDir "buildings-to-dsm"

def output_dsm (cfg : DriverCfg) : String :=
  pjoin (buildings_to_dsm_outdir cfg) "buildings_to_dsm_DSM.tif"

def output_cls (cfg : DriverCfg) : String :=
  pjoin (buildings_to_dsm_outdir cfg) "buildings_to_dsm_CLS.tif"

def run_metrics_outdir (cfg : DriverCfg) : String :=
  pjoin cfg.workingDir "run_metrics"

def output_mtl (cfg : DriverCfg) : String :=
  pjoin (material_classifier_outdir cfg) (cfg.aoiName ++ "_MTL.tif")

def genDsmArgs (cfg : DriverCfg) : List String :=
  py_cmd (relative_tool_path cfg.toolsDir "generate_dsm.py") ++
    [dsm_file cfg, "-s", cfg.p3dFile, "--gsd", cfg.gsdStr] ++
    (match cfg.bounds with
     | some b => "--bounds" :: pySplitSpace b
     | none => [])

def fitDtmArgs (cfg : DriverCfg) : List String :=
  py_cmd (relative_tool_path cfg.toolsDir "fit_dtm.py") ++
    [dsm_file cfg, dtm_file cfg]

def ortho_img_fpath (cfg : DriverCfg) (msiImg : String) : String :=
  pjoin (orthorectify_outdir cfg) (stemOf msiImg ++ "_ortho.tif")

/-- One iteration of the orthorectification fan-out (lines 333-347). -/
def orthoStep (cfg : DriverCfg) (msiImg : String) (msiRpc : Option String) :
    StepCall :=
  StepCall.mk (orthorectify_outdir cfg) ("orthorectify-" ++ stemOf msiImg)
    (py_cmd (relative_tool_path cfg.toolsDir "orthorectify.py") ++
      [msiImg, dsm_file cfg, ortho_img_fpath cfg msiImg, "--dtm", dtm_file cfg] ++
      (match msiRpc with
       | some r => ["--raytheon-rpc", r]
       | none => []))

def ndviArgs (cfg : DriverCfg) (orthoPaths : List String) : List String :=
  py_cmd (relative_tool_path cfg.toolsDir "compute_ndvi.py") ++
    orthoPaths ++ [ndvi_output_fpath cfg]

def roadArgs (cfg : DriverCfg) : List String :=
  py_cmd (relative_tool_path cfg.toolsDir "get_road_vector.py") ++
    ["--bounding-img", dsm_file cfg, "--output-dir", get_road_vector_outdir cfg]

def segArgs (cfg : DriverCfg) : List String :=
  py_cmd (relative_tool_path cfg.toolsDir "segment_by_height.py") ++
    [dsm_file cfg, dtm_file cfg, threshold_output_mask_fpath cfg,
     "--input-ndvi", ndvi_output_fpath cfg,
     "--road-vector", road_vector_output_fpath cfg,
     "--road-rasterized", pjoin (seg_by_height_outdir cfg) "road_rasterized.tif",
     "--road-rasterized-bridge",
     pjoin (seg_by_height_outdir cfg) "road_rasterized_bridge.tif"]

def matArgs (cfg : DriverCfg) (img_paths info_paths : List String) : List String :=
  py_cmd (relative_tool_path cfg.toolsDir "material_classifier.py") ++
    ["--image_paths"] ++ img_paths ++ ["--info_paths"] ++ info_paths ++
    ["--output_dir", material_classifier_outdir cfg,
     "--model_path", cfg.materialModelFpath,
     "--outfile_prefix", cfg.aoiName] ++
    (match cfg.materialBatchSize with
     | some b => ["--batch_size", b]
     | none => []) ++
    (if cfg.materialCuda then ["--cuda"] else [])

def roofArgs (cfg : DriverCfg) : List String :=
  py_cmd (relative_tool_path cfg.toolsDir "roof_geon_extraction.py") ++
    ["--las", cfg.p3dFile, "--cls", threshold_output_mask_fpath cfg,
     "--dtm", dtm_file cfg, "--model_dir", cfg.roofModelDir,
     "--model_prefix", cfg.roofModelPrefVal,
     "--output_dir", roof_geon_extraction_outdir cfg]

/-- One iteration of the crop-and-pansharpen fan-out (lines 470-483). -/
def cropStep (cfg : DriverCfg) (key panImg : String) (panRpc : Option String)
    (msiImg : String) (msiRpc : Option String) : StepCall :=
  StepCall.mk (crop_and_pansharpen_outdir cfg) ("crop-and-pansharpen-" ++ key)
    (py_cmd (relative_tool_path cfg.toolsDir "crop_and_pansharpen.py") ++
      [dsm_file cfg, crop_and_pansharpen_outdir cfg, "--pan", panImg] ++
      (match panRpc with
       | some r => [r]
       | none => []) ++
      ["--msi", msiImg] ++
      (match msiRpc with
       | some r => [r]
       | none => []))

def texArgs (cfg : DriverCfg) (cropGlob meshGlob : List String) : List String :=
  py_cmd (relative_tool_path cfg.toolsDir "texture_mapping.py") ++
    [dsm_file cfg, dtm_file cfg, texture_mapping_outdir cfg, "xxxx.obj",
     "--crops"] ++
    cropGlob ++ ["--buildings"] ++
    meshGlob.filter (fun e => ! pyInB "xxxx.obj" e)

def bdsmArgs (cfg : DriverCfg) (objGlob : List String) : List String :=
  py_cmd (relative_tool_path cfg.toolsDir "buildings_to_dsm.py") ++
    [dtm_file cfg, output_dsm cfg, "--input_obj_paths"] ++ objGlob

def bclsArgs (cfg : DriverCfg) (objGlob : List String) : List String :=
  py_cmd (relative_tool_path cfg.toolsDir "buildings_to_dsm.py") ++
    [dtm_file cfg, output_cls cfg, "--render_cls", "--input_obj_paths"] ++ objGlob

def metricsStep (cfg : DriverCfg) : StepCall :=
  StepCall.mk (run_metrics_outdir cfg) "run-metrics"
    (py_cmd (relative_tool_path cfg.toolsDir "run_metrics.py") ++
      ["--output-dir", run_metrics_outdir cfg,
       "--ref-dir", cfg.metricsRefDataDir,
       "--ref-prefix", cfg.metricsRefDataPrefVal,
       "--dsm", output_dsm cfg, "--cls", output_cls cfg,
       "--mtl", output_mtl cfg, "--dtm", dtm_file cfg])

/-- Lines 291-561 of `main`: the fixed stage sequence over the pruned
collation, including the per-record fan-outs (orthorectify, which also
records each record's orthorectified path, and crop-and-pansharpen) and the
trailing conditional metrics stage. -/
def stageSteps (cfg : DriverCfg) (runMetricsFlag : Bool)
    (coll : List (String × CollectionRecord))
    (cropGlob meshGlob objGlob : List String) : List StepCall :=
  let orthoPairs := coll.map (fun kv =>
    (orthoStep cfg (roleImage kv.2.msi) (roleRpc kv.2.msi),
     (kv.1, setMsiOrtho kv.2 (ortho_img_fpath cfg (roleImage kv.2.msi)))))
  let coll2 := orthoPairs.map (fun x => x.2)
  [StepCall.mk (generate_dsm_outdir cfg) "generate-dsm" (genDsmArgs cfg),
   StepCall.mk (fit_dtm_outdir cfg) "fit-dtm" (fitDtmArgs cfg)] ++
  orthoPairs.map (fun x => x.1) ++
  [StepCall.mk (ndvi_outdir cfg) "compute-ndvi"
     (ndviArgs cfg (coll2.filterMap (fun kv => kv.2.msi.bind (fun x => x.ortho)))),
   StepCall.mk (get_road_vector_outdir cfg) "get-road-vector" (roadArgs cfg),
   StepCall.mk (seg_by_height_outdir cfg) "segment-by-height" (segArgs cfg),
   StepCall.mk (material_classifier_outdir cfg) "material-classification"
     (matArgs cfg (coll2.map (fun kv => roleOrtho kv.2.msi))
        (coll2.map (fun kv => roleInfo kv.2.msi))),
   StepCall.mk (roof_geon_extraction_outdir cfg) "roof-geon-extraction"
     (roofArgs cfg)] ++
  coll2.map (fun kv => cropStep cfg kv.1 (roleImage kv.2.pan) (roleRpc kv.2.pan)
    (roleImage kv.2.msi) (roleRpc kv.2.msi)) ++
  [StepCall.mk (texture_mapping_outdir cfg) "texture-mapping"
     (texArgs cfg cropGlob meshGlob),
   StepCall.mk (buildings_to_dsm_outdir cfg) "buildings-to-dsm_DSM"
     (bdsmArgs cfg objGlob),
   StepCall.mk (buildings_to_dsm_outdir cfg) "buildings-to-dsm_CLS"
     (bclsArgs cfg objGlob)] ++
  (if runMetricsFlag then [metricsStep cfg] else [])

structure VissatCfg where
  /-- `data['work_dir']` from the VisSat AOI-config JSON. -/
  workdir : String
  /-- `config['paths']['aoi_config']`. -/
  aoiConfig : String
  /-- `config['aoi']['utm']`. -/
  utm : String
  deriving DecidableEq, Repr

/-- Lines 233-258: the three chained VisSat invocations. -/
def vissatSteps (v : VissatCfg) (p3dFile : String) : List StepCall :=
  [StepCall.mk v.workdir "VisSat"
     ["python3", "/VisSatSatelliteStereo/stereo_pipeline.py", "--config_file",
      v.aoiConfig],
   StepCall.mk v.workdir "ply2txt"
     ["python3", "/ply2txt.py",
      pjoin v.workdir "mvs_results/aggregate_3d/aggregate_3d.ply",
      pjoin v.workdir "mvs_results/aggregate_3d/aggregate_3d.txt"],
   StepCall.mk v.workdir "txt2las"
     ["/LAStools/bin/txt2las", "-i",
      pjoin v.workdir "mvs_results/aggregate_3d/aggregate_3d.txt",
      "-parse", "xyz", "-o", p3dFile, "-utm", v.utm, "-target_utm", v.utm]]

/-- The full sequence of `run_step` invocations of one `main` run on the
success path: the conditional VisSat group, then the fixed stage sequence
over the pruned collation of the scanned input paths. -/
def mainStepCalls (cfg : DriverCfg) (vissat : Option VissatCfg)
    (runMetricsFlag : Bool) (inputPaths : List String) (use_rpcs : Bool)
    (cropGlob meshGlob objGlob : List String) : List StepCall :=
  (match vissat with
   | some v => vissatSteps v cfg.p3dFile
   | none => []) ++
  stageSteps cfg runMetricsFlag
    (pruneIncomplete (collate_input_paths inputPaths) use_rpcs)
    cropGlob meshGlob objGlob

/-! ## Claim C5: the end-to-end stage sequence -/

theorem strHead_ne (a b : String) (h : a.data.head? ≠ b.data.head?) : a ≠ b :=
  fun he => h (by rw [he])

theorem ortho_sn_ne_metrics (x : String) :
    ("orthorectify-" ++ x) ≠ "run-metrics" := by
  apply strHead_ne
  rw [String.data_append]
  have h1 : ("orthorectify-" : String).data = 'o' :: "rthorectify-".data := rfl
  have h2 : ("run-metrics" : String).data = 'r' :: "un-metrics".data := rfl
  rw [h1, h2]
  simp

theorem crop_sn_ne_metrics (x : String) :
    ("crop-and-pansharpen-" ++ x) ≠ "run-metrics" := by
  apply strHead_ne
  rw [String.data_append]
  have h1 : ("crop-and-pansharpen-" : String).data
      = 'c' :: "rop-and-pansharpen-".data := rfl
  have h2 : ("run-metrics" : String).data = 'r' :: "un-metrics".data := rfl
  rw [h1, h2]
  simp

/-- C5: with neither the VisSat flag nor the metrics flag, on input whose
collation pruned to exactly two complete records, the driver performs
precisely this sequence: DSM generation, DTM fitting, orthorectification
twice (once per record), NDVI once receiving both orthorectified paths in
record order, road-vector retrieval, segmentation, material classification
once with the image-path list and the info-path list aligned index-by-index
per acquisition record, roof/geon extraction, crop-and-pansharpen twice,
texture mapping, buildings-to-DSM twice (DSM variant then CLS variant) —
and no `run-metrics` step is ever invoked. -/
theorem claim_C5_stage_sequence (cfg : DriverCfg) (inputPaths : List String)
    (use_rpcs : Bool) (cropGlob meshGlob objGlob : List String)
    (k1 k2 pi1 pt1 mi1 mt1 pi2 pt2 mi2 mt2 : String)
    (h : pruneIncomplete (collate_input_paths inputPaths) use_rpcs
      = [(k1, ⟨some ⟨some pi1, some pt1, none, none⟩,
              some ⟨some mi1, some mt1, none, none⟩, none⟩),
         (k2, ⟨some ⟨some pi2, some pt2, none, none⟩,
              some ⟨some mi2, some mt2, none, none⟩, none⟩)]) :
    mainStepCalls cfg none false inputPaths use_rpcs cropGlob meshGlob objGlob
      = [StepCall.mk (generate_dsm_outdir cfg) "generate-dsm" (genDsmArgs cfg),
         StepCall.mk (fit_dtm_outdir cfg) "fit-dtm" (fitDtmArgs cfg),
         orthoStep cfg mi1 none,
         orthoStep cfg mi2 none,
         StepCall.mk (ndvi_outdir cfg) "compute-ndvi"
           (ndviArgs cfg [ortho_img_fpath cfg mi1, ortho_img_fpath cfg mi2]),
         StepCall.mk (get_road_vector_outdir cfg) "get-road-vector" (roadArgs cfg),
         StepCall.mk (seg_by_height_outdir cfg) "segment-by-height" (segArgs cfg),
         StepCall.mk (material_classifier_outdir cfg) "material-classification"
           (matArgs cfg [ortho_img_fpath cfg mi1, ortho_img_fpath cfg mi2]
             [mt1, mt2]),
         StepCall.mk (roof_geon_extraction_outdir cfg) "roof-geon-extraction"
           (roofArgs cfg),
         cropStep cfg k1 pi1 none mi1 none,
         cropStep cfg k2 pi2 none mi2 none,
         StepCall.mk (texture_mapping_outdir cfg) "texture-mapping"
           (texArgs cfg cropGlob meshGlob),
         StepCall.mk (buildings_to_dsm_outdir cfg) "buildings-to-dsm_DSM"
           (bdsmArgs cfg objGlob),
         StepCall.mk (buildings_to_dsm_outdir cfg) "buildings-to-dsm_CLS"
           (bclsArgs cfg objGlob)] ∧
    ∀ st ∈ mainStepCalls cfg none false inputPaths use_rpcs cropGlob meshGlob objGlob,
      st.sn ≠ "run-metrics" := by
  constructor
  · unfold mainStepCalls
    rw [h]
    rfl
  · intro st hst
    unfold mainStepCalls at hst
    rw [h] at hst
    replace hst : st ∈
        [StepCall.mk (generate_dsm_outdir cfg) "generate-dsm" (genDsmArgs cfg),
         StepCall.mk (fit_dtm_outdir cfg) "fit-dtm" (fitDtmArgs cfg),
         orthoStep cfg mi1 none,
         orthoStep cfg mi2 none,
         StepCall.mk (ndvi_outdir cfg) "compute-ndvi"
           (ndviArgs cfg [ortho_img_fpath cfg mi1, ortho_img_fpath cfg mi2]),
         StepCall.mk (get_road_vector_outdir cfg) "get-road-vector" (roadArgs cfg),
         StepCall.mk (seg_by_height_outdir cfg) "segment-by-height" (segArgs cfg),
         StepCall.mk (material_classifier_outdir cfg) "material-classification"
           (matArgs cfg [ortho_img_fpath cfg mi1, ortho_img_fpath cfg mi2]
             [mt1, mt2]),
         StepCall.mk (roof_geon_extraction_outdir cfg) "roof-geon-extraction"
           (roofArgs cfg),
         cropStep cfg k1 pi1 none mi1 none,
         cropStep cfg k2 pi2 none mi2 none,
         StepCall.mk (texture_mapping_outdir cfg) "texture-mapping"
           (texArgs cfg cropGlob meshGlob),
         StepCall.mk (buildings_to_dsm_outdir cfg) "buildings-to-dsm_DSM"
           (bdsmArgs cfg objGlob),
         StepCall.mk (buildings_to_dsm_outdir cfg) "buildings-to-dsm_CLS"
           (bclsArgs cfg objGlob)] := hst
    simp only [List.mem_cons, List.not_mem_nil, or_false] at hst
    rcases hst with rfl | rfl | rfl | rfl | rfl | rfl | rfl | rfl | rfl | rfl |
      rfl | rfl | rfl | rfl
    · exact (by decide : ("generate-dsm" : String) ≠ "run-metrics")
    · exact (by decide : ("fit-dtm" : String) ≠ "run-metrics")
    · exact ortho_sn_ne_metrics _
    · exact ortho_sn_ne_metrics _
    · exact (by decide : ("compute-ndvi" : String) ≠ "run-metrics")
    · exact (by decide : ("get-road-vector" : String) ≠ "run-metrics")
    · exact (by decide : ("segment-by-height" : String) ≠ "run-metrics")
    · exact (by decide : ("material-classification" : String) ≠ "run-metrics")
    · exact (by decide : ("roof-geon-extraction" : String) ≠ "run-metrics")
    · exact crop_sn_ne_metrics _
    · exact crop_sn_ne_metrics _
    · exact (by decide : ("texture-mapping" : String) ≠ "run-metrics")
    · exact (by decide : ("buildings-to-dsm_DSM" : String) ≠ "run-metrics")
    · exact (by decide : ("buildings-to-dsm_CLS" : String) ≠ "run-metrics")

/-- A concrete configuration for the C5 witness. -/
def cfgW : DriverCfg :=
  ⟨"/danesfield/tools", "/work", "aoi", "0.25", "/work/p3d.las", none,
   "/models/material.pt", none, false, "/models/roof", "roofp",
   "/ref", "refp"⟩

/-- Eight concrete input files collating to two complete records. -/
def inputPathsW : List String :=
  ["12ABC34567890-P1BS-123456789012_01_P001.NTF",
   "12ABC34567890-P1BS-123456789012_01_P001.TAR",
   "12ABC34567890-M1BS-123456789012_01_P001.NTF",
   "12ABC34567890-M1BS-123456789012_01_P001.TAR",
   "98XYZ76543210-P1BS-210987654321_02_P002.NTF",
   "98XYZ76543210-P1BS-210987654321_02_P002.TAR",
   "98XYZ76543210-M1BS-210987654321_02_P002.NTF",
   "98XYZ76543210-M1BS-210987654321_02_P002.TAR"]

/-- Witness for C5: at the concrete configuration and input files, the first
driver step exists in the computed sequence and is not the metrics step. -/
theorem claim_C5_stage_sequence_witness :
    (StepCall.mk (generate_dsm_outdir cfgW) "generate-dsm" (genDsmArgs cfgW)).sn
      ≠ "run-metrics" :=
  (claim_C5_stage_sequence cfgW inputPathsW false [] [] []
      "12ABC34567890-123456789012_01_P001" "98XYZ76543210-210987654321_02_P002"
      "12ABC34567890-P1BS-123456789012_01_P001.NTF"
      "12ABC34567890-P1BS-123456789012_01_P001.TAR"
      "12ABC34567890-M1BS-123456789012_01_P001.NTF"
      "12ABC34567890-M1BS-123456789012_01_P001.TAR"
      "98XYZ76543210-P1BS-210987654321_02_P002.NTF"
      "98XYZ76543210-P1BS-210987654321_02_P002.TAR"
      "98XYZ76543210-M1BS-210987654321_02_P002.NTF"
      "98XYZ76543210-M1BS-210987654321_02_P002.TAR"
      (by decide)).2
    (StepCall.mk (generate_dsm_outdir cfgW) "generate-dsm" (genDsmArgs cfgW))
    (by decide)

end Danesfield
